import Mathlib

/-!
# VectorToTensorCalculator

A shallow embedding of `mediapipe/calculators/tensor/vector_to_tensor_calculator.cc`
and the properties its specification states about it.

The calculator receives, on its `VECTOR` port, a packet holding one C++ vector and
sends, on its `TENSOR` port, a tensor of shape `[1, N]` holding a copy of it.
-/

namespace mediapipe

/-! ## C++ element types -/

/-- The C++ type `float`, kept as its 32-bit pattern: the calculator only copies floats. -/
structure float where
  bits : Nat
  deriving DecidableEq, Repr

/-- The C++ type `uint8_t` (values 0 .. 255). -/
structure uint8_t where
  val : Nat
  deriving DecidableEq, Repr

/-- The C++ type `int8_t` (values -128 .. 127). -/
structure int8_t where
  val : Int
  deriving DecidableEq, Repr

/-- The C++ type `int32_t` (values -2^31 .. 2^31 - 1). -/
structure int32_t where
  val : Int
  deriving DecidableEq, Repr

/-- The C++ type `char`. -/
structure char where
  val : Int
  deriving DecidableEq, Repr

/-- One typed cell of memory: a value of one of the six element types. -/
inductive Value where
  | float (x : float)
  | uint8_t (x : uint8_t)
  | int8_t (x : int8_t)
  | int32_t (x : int32_t)
  | char (x : char)
  | bool (x : Bool)
  deriving DecidableEq, Repr

/-- Element types that can be written to and read from typed memory through a
pointer `T*` (what `buffer<T>()` of a tensor view hands out). -/
class Element (T : Type) where
  /-- The cell produced by storing a `T`. -/
  store : T → Value
  /-- The `T` read from a cell, when the cell holds a `T`. -/
  load : Value → Option T
  /-- Reading a cell that was written with a `T` gives back what was written. -/
  load_store : ∀ x : T, load (store x) = some x

instance : Element float where
  store := Value.float
  load | Value.float x => some x | _ => none
  load_store _ := rfl

instance : Element uint8_t where
  store := Value.uint8_t
  load | Value.uint8_t x => some x | _ => none
  load_store _ := rfl

instance : Element int8_t where
  store := Value.int8_t
  load | Value.int8_t x => some x | _ => none
  load_store _ := rfl

instance : Element int32_t where
  store := Value.int32_t
  load | Value.int32_t x => some x | _ => none
  load_store _ := rfl

instance : Element char where
  store := Value.char
  load | Value.char x => some x | _ => none
  load_store _ := rfl

instance : Element Bool where
  store := Value.bool
  load | Value.bool x => some x | _ => none
  load_store _ := rfl

/-! ## absl::Status -/

/-- The status codes of `absl::Status` that the calculator produces. -/
inductive StatusCode where
  | kOk
  | kInvalidArgument
  | kInternal
  deriving DecidableEq, Repr

/-- An `absl::Status`: a code and a message. -/
structure Status where
  code : StatusCode
  message : String
  deriving DecidableEq, Repr

/-- The status `absl::OkStatus()`. -/
def OkStatus : Status := ⟨StatusCode.kOk, ""⟩

/-- The status `absl::InvalidArgumentError(message)`. -/
def InvalidArgumentError (message : String) : Status := ⟨StatusCode.kInvalidArgument, message⟩

/-- The type `absl::StatusOr<T>`: a value, or the status of the failure. -/
abbrev StatusOr (α : Type) := Except Status α

/-- What running a piece of the program gives: the value it returns, or no defined
behaviour at all (C++ undefined behaviour, here a store outside the memory of a tensor). -/
inductive Outcome (α : Type) where
  | returns (value : α)
  | undefined
  deriving Repr

/-- Modelled from the spec: the macro `RET_CHECK_GT` is declared in
`mediapipe/framework/port/ret_check.h`, which is not among the sources. When `a > b` does
not hold the enclosing function returns a failure status carrying the streamed message (the
"empty input" condition of the spec, an internal error of the framework); otherwise
execution continues. -/
def RET_CHECK_GT (a b : Nat) (message : String) : StatusOr Unit :=
  if a > b then Except.ok () else Except.error ⟨StatusCode.kInternal, message⟩

/-- The `EmptyInput` condition of the spec: the status a failed
`RET_CHECK_GT(input.size(), 0) << "Input vector is empty"` returns. -/
def EmptyInput : Status := ⟨StatusCode.kInternal, "Input vector is empty"⟩

/-- The `UnsupportedType` condition of the spec:
`absl::InvalidArgumentError("Unsupported type")`. -/
def UnsupportedType : Status := InvalidArgumentError "Unsupported type"

/-! ## Tensor -/

/-- The tags `Tensor::ElementType` that the calculator uses. -/
inductive ElementType where
  | kFloat32
  | kUInt8
  | kInt8
  | kInt32
  | kChar
  | kBool
  deriving DecidableEq, Repr

/-- A `Tensor::Shape`: the dimensions, which are C++ `int`s. -/
structure Shape where
  dims : List Int
  deriving DecidableEq, Repr

/-- The element count a shape implies: the product of its dimensions. -/
def Shape.num_elements (s : Shape) : Int := s.dims.foldl (fun acc d => acc * d) 1

/-- Modelled from the spec: the class `Tensor` is declared in
`mediapipe/framework/formats/tensor.h`, which is not among the sources. A tensor has an
element type tag, a shape, and a host memory region that it owns; the region has as many
cells as the element count the shape implies. A cell is `none` until it is written. -/
structure Tensor where
  element_type : ElementType
  shape : Shape
  cpu_buffer : List (Option Value)
  deriving DecidableEq, Repr

/-- Modelled from the spec: the constructor `Tensor(element_type, shape)`. The region
it allocates has `shape.num_elements` cells (none when that count is not positive), all
unwritten. -/
def Tensor.create (element_type : ElementType) (shape : Shape) : Tensor :=
  ⟨element_type, shape, List.replicate shape.num_elements.toNat none⟩

/-- Modelled from the spec: a host write view over a tensor, which gives element access
to the whole region. -/
structure CpuWriteView where
  buffer : List (Option Value)
  deriving DecidableEq, Repr

/-- Modelled from the spec: `Tensor::GetCpuWriteView()`. -/
def Tensor.GetCpuWriteView (t : Tensor) : CpuWriteView := ⟨t.cpu_buffer⟩

/-- Modelled from the spec: the tensor once the write view is released, its region holding
what was written through the view. -/
def Tensor.release (t : Tensor) (view : CpuWriteView) : Tensor :=
  { t with cpu_buffer := view.buffer }

/-- Modelled from the spec: reading element `i` of the tensor through a host read view,
`GetCpuReadView().buffer<T>()[i]`. The element exists when `i` is inside the region and
the cell was written with a `T`. -/
def Tensor.read (T : Type) [Element T] (t : Tensor) (i : Nat) : Option T :=
  match t.cpu_buffer[i]? with
  | some (some v) => Element.load v
  | _ => none

/-- The conversion `static_cast<int>(n)` of a `size_t`: the low 32 bits of `n`, read as a
two's complement signed number. -/
def static_cast_int (n : Nat) : Int :=
  if n % 2 ^ 32 < 2 ^ 31 then ((n % 2 ^ 32 : Nat) : Int) else ((n % 2 ^ 32 : Nat) : Int) - 2 ^ 32

/-- The loop of `std::copy(first, last, d_first)` with the destination a pointer into a
tensor region: the source elements are stored one after the other at `d_first`,
`d_first + 1`, ... and the region after the last store is returned. A store at an offset
that is not inside the region is undefined behaviour, and so is the whole copy then. -/
def std_copy {T : Type} [Element T] :
    List T → Nat → List (Option Value) → Outcome (List (Option Value))
  | [], _, region => Outcome.returns region
  | x :: rest, d_first, region =>
      if d_first < region.length then
        std_copy rest (d_first + 1) (region.set d_first (some (Element.store x)))
      else Outcome.undefined

/-! ## Packets and the calculator context -/

/-- What a packet on the `VECTOR` port can hold at run time: a vector of one of the six
types of `SupportedInputVectors`, or a value of any other C++ type (for instance a
`std::vector<double>`), given by a number for its type and its elements as raw words. A
payload has exactly one of these forms. -/
inductive Payload where
  | vector_float (v : List float)
  | vector_uint8_t (v : List uint8_t)
  | vector_int8_t (v : List int8_t)
  | vector_int32_t (v : List int32_t)
  | vector_char (v : List char)
  | vector_bool (v : List Bool)
  | other (type_id : Nat) (elements : List Nat)
  deriving DecidableEq, Repr

namespace Payload

/-- The query `Has<std::vector<float>>()`. -/
def Has_vector_float : Payload → Bool
  | vector_float _ => true
  | _ => false

/-- The query `Has<std::vector<uint8_t>>()`. -/
def Has_vector_uint8_t : Payload → Bool
  | vector_uint8_t _ => true
  | _ => false

/-- The query `Has<std::vector<int8_t>>()`. -/
def Has_vector_int8_t : Payload → Bool
  | vector_int8_t _ => true
  | _ => false

/-- The query `Has<std::vector<int32_t>>()`. -/
def Has_vector_int32_t : Payload → Bool
  | vector_int32_t _ => true
  | _ => false

/-- The query `Has<std::vector<char>>()`. -/
def Has_vector_char : Payload → Bool
  | vector_char _ => true
  | _ => false

/-- The query `Has<std::vector<bool>>()`. -/
def Has_vector_bool : Payload → Bool
  | vector_bool _ => true
  | _ => false

/-- The access `Get<std::vector<float>>()`, defined when the payload has that type. -/
def Get_vector_float : (p : Payload) → p.Has_vector_float = true → List float
  | vector_float v, _ => v
  | vector_uint8_t _, h => nomatch h
  | vector_int8_t _, h => nomatch h
  | vector_int32_t _, h => nomatch h
  | vector_char _, h => nomatch h
  | vector_bool _, h => nomatch h
  | other _ _, h => nomatch h

/-- The access `Get<std::vector<uint8_t>>()`, defined when the payload has that type. -/
def Get_vector_uint8_t : (p : Payload) → p.Has_vector_uint8_t = true → List uint8_t
  | vector_uint8_t v, _ => v
  | vector_float _, h => nomatch h
  | vector_int8_t _, h => nomatch h
  | vector_int32_t _, h => nomatch h
  | vector_char _, h => nomatch h
  | vector_bool _, h => nomatch h
  | other _ _, h => nomatch h

/-- The access `Get<std::vector<int8_t>>()`, defined when the payload has that type. -/
def Get_vector_int8_t : (p : Payload) → p.Has_vector_int8_t = true → List int8_t
  | vector_int8_t v, _ => v
  | vector_float _, h => nomatch h
  | vector_uint8_t _, h => nomatch h
  | vector_int32_t _, h => nomatch h
  | vector_char _, h => nomatch h
  | vector_bool _, h => nomatch h
  | other _ _, h => nomatch h

/-- The access `Get<std::vector<int32_t>>()`, defined when the payload has that type. -/
def Get_vector_int32_t : (p : Payload) → p.Has_vector_int32_t = true → List int32_t
  | vector_int32_t v, _ => v
  | vector_float _, h => nomatch h
  | vector_uint8_t _, h => nomatch h
  | vector_int8_t _, h => nomatch h
  | vector_char _, h => nomatch h
  | vector_bool _, h => nomatch h
  | other _ _, h => nomatch h

/-- The access `Get<std::vector<char>>()`, defined when the payload has that type. -/
def Get_vector_char : (p : Payload) → p.Has_vector_char = true → List char
  | vector_char v, _ => v
  | vector_float _, h => nomatch h
  | vector_uint8_t _, h => nomatch h
  | vector_int8_t _, h => nomatch h
  | vector_int32_t _, h => nomatch h
  | vector_bool _, h => nomatch h
  | other _ _, h => nomatch h

/-- The access `Get<std::vector<bool>>()`, defined when the payload has that type. -/
def Get_vector_bool : (p : Payload) → p.Has_vector_bool = true → List Bool
  | vector_bool v, _ => v
  | vector_float _, h => nomatch h
  | vector_uint8_t _, h => nomatch h
  | vector_int8_t _, h => nomatch h
  | vector_int32_t _, h => nomatch h
  | vector_char _, h => nomatch h
  | other _ _, h => nomatch h

/-- Whether the payload is a vector of one of the six supported types. -/
def supported : Payload → Bool
  | other _ _ => false
  | _ => true

/-- The number of elements of the payload. -/
def size : Payload → Nat
  | vector_float v => v.length
  | vector_uint8_t v => v.length
  | vector_int8_t v => v.length
  | vector_int32_t v => v.length
  | vector_char v => v.length
  | vector_bool v => v.length
  | other _ elements => elements.length

end Payload

/-- An `api2::Packet<SupportedInputVectors>`: a payload and the timestamp it carries. -/
structure Packet where
  payload : Payload
  timestamp : Int
  deriving DecidableEq, Repr

/-- A packet on the `TENSOR` port: a tensor and the timestamp it carries. -/
structure TensorPacket where
  payload : Tensor
  timestamp : Int
  deriving DecidableEq, Repr

/-- The part of a `CalculatorContext` that the calculator touches during one invocation:
the packet on the input port `VECTOR` and the packets sent so far on the output port
`TENSOR`. -/
structure CalculatorContext where
  VECTOR : Packet
  TENSOR : List TensorPacket
  deriving DecidableEq, Repr

/-- Modelled from the spec: `Send` of an output port is declared in
`mediapipe/framework/api2/port.h`, which is not among the sources. It emits one packet
carrying the payload, which inherits the timestamp of the input packet. -/
def CalculatorContext.Send (cc : CalculatorContext) (tensor : Tensor) : CalculatorContext :=
  { cc with TENSOR := cc.TENSOR ++ [⟨tensor, cc.VECTOR.timestamp⟩] }

namespace VectorToTensorCalculator

/-- Lines 78 to 80 of `CopyVectorToNewTensor`: the tensor the function constructs for
`input`, before anything is copied into it. -/
def CopyVectorToNewTensor_tensor {VectorT : Type} (TensorT : ElementType)
    (input : List VectorT) : Tensor :=
  let dimensions : List Int := [1, static_cast_int input.length]
  Tensor.create TensorT (Shape.mk dimensions)

/-- The function template `CopyVectorToNewTensor<VectorT, TensorT>(input)`. -/
def CopyVectorToNewTensor {VectorT : Type} [Element VectorT] (TensorT : ElementType)
    (input : List VectorT) : Outcome (StatusOr Tensor) :=
  match RET_CHECK_GT input.length 0 "Input vector is empty" with
  | Except.error status => Outcome.returns (Except.error status)
  | Except.ok _ =>
      let tensor := CopyVectorToNewTensor_tensor TensorT input
      let cpu_write_view := tensor.GetCpuWriteView
      match std_copy input 0 cpu_write_view.buffer with
      | Outcome.undefined => Outcome.undefined
      | Outcome.returns written => Outcome.returns (Except.ok (tensor.release ⟨written⟩))

/-- The function `ConvertVectorToTensor(input)`: six type checks, one after the other. -/
def ConvertVectorToTensor (input : Packet) : Outcome (StatusOr Tensor) :=
  if h : input.payload.Has_vector_float = true then
    CopyVectorToNewTensor ElementType.kFloat32 (input.payload.Get_vector_float h)
  else if h : input.payload.Has_vector_uint8_t = true then
    CopyVectorToNewTensor ElementType.kUInt8 (input.payload.Get_vector_uint8_t h)
  else if h : input.payload.Has_vector_int8_t = true then
    CopyVectorToNewTensor ElementType.kInt8 (input.payload.Get_vector_int8_t h)
  else if h : input.payload.Has_vector_int32_t = true then
    CopyVectorToNewTensor ElementType.kInt32 (input.payload.Get_vector_int32_t h)
  else if h : input.payload.Has_vector_char = true then
    CopyVectorToNewTensor ElementType.kChar (input.payload.Get_vector_char h)
  else if h : input.payload.Has_vector_bool = true then
    CopyVectorToNewTensor ElementType.kBool (input.payload.Get_vector_bool h)
  else
    Outcome.returns (Except.error (InvalidArgumentError "Unsupported type"))

/-- The method `Open(cc)`. -/
def Open (_cc : CalculatorContext) : Status := OkStatus

/-- The method `Process(cc)`: the status it returns and the context it leaves.
`MP_ASSIGN_OR_RETURN` returns the status of a failed conversion at once. -/
def Process (cc : CalculatorContext) : Outcome (Status × CalculatorContext) :=
  match ConvertVectorToTensor cc.VECTOR with
  | Outcome.undefined => Outcome.undefined
  | Outcome.returns (Except.error status) => Outcome.returns (status, cc)
  | Outcome.returns (Except.ok tensor) => Outcome.returns (OkStatus, cc.Send tensor)

/-- One of the six type checks of `ConvertVectorToTensor`, named by the element type. -/
inductive TypeCheck where
  | float
  | uint8_t
  | int8_t
  | int32_t
  | char
  | bool
  deriving DecidableEq, Repr

/-- The statement `if (input.Has<V>()) { return CopyVectorToNewTensor<T, tag>(input.Get<V>()); }`
of one check: the value it returns, or `none` when the check fails and control goes on. -/
def TypeCheck.branch : TypeCheck → Packet → Option (Outcome (StatusOr Tensor))
  | TypeCheck.float, input =>
      if h : input.payload.Has_vector_float = true then
        some (CopyVectorToNewTensor ElementType.kFloat32 (input.payload.Get_vector_float h))
      else none
  | TypeCheck.uint8_t, input =>
      if h : input.payload.Has_vector_uint8_t = true then
        some (CopyVectorToNewTensor ElementType.kUInt8 (input.payload.Get_vector_uint8_t h))
      else none
  | TypeCheck.int8_t, input =>
      if h : input.payload.Has_vector_int8_t = true then
        some (CopyVectorToNewTensor ElementType.kInt8 (input.payload.Get_vector_int8_t h))
      else none
  | TypeCheck.int32_t, input =>
      if h : input.payload.Has_vector_int32_t = true then
        some (CopyVectorToNewTensor ElementType.kInt32 (input.payload.Get_vector_int32_t h))
      else none
  | TypeCheck.char, input =>
      if h : input.payload.Has_vector_char = true then
        some (CopyVectorToNewTensor ElementType.kChar (input.payload.Get_vector_char h))
      else none
  | TypeCheck.bool, input =>
      if h : input.payload.Has_vector_bool = true then
        some (CopyVectorToNewTensor ElementType.kBool (input.payload.Get_vector_bool h))
      else none

/-- The checks run one after the other in a given order: the first check that holds
returns, and when none holds the result is the "Unsupported type" error. -/
def sequential_checks : List TypeCheck → Packet → Outcome (StatusOr Tensor)
  | [], _ => Outcome.returns (Except.error (InvalidArgumentError "Unsupported type"))
  | check :: rest, input =>
      match check.branch input with
      | some result => result
      | none => sequential_checks rest input

/-- The order in which `ConvertVectorToTensor` runs its checks. -/
def source_order : List TypeCheck :=
  [TypeCheck.float, TypeCheck.uint8_t, TypeCheck.int8_t, TypeCheck.int32_t, TypeCheck.char,
    TypeCheck.bool]

/-- The dispatch as the spec words it: a single exhaustive match on the type tag of the
packet. -/
def match_on_type_tag (input : Packet) : Outcome (StatusOr Tensor) :=
  match input.payload with
  | Payload.vector_float v => CopyVectorToNewTensor ElementType.kFloat32 v
  | Payload.vector_uint8_t v => CopyVectorToNewTensor ElementType.kUInt8 v
  | Payload.vector_int8_t v => CopyVectorToNewTensor ElementType.kInt8 v
  | Payload.vector_int32_t v => CopyVectorToNewTensor ElementType.kInt32 v
  | Payload.vector_char v => CopyVectorToNewTensor ElementType.kChar v
  | Payload.vector_bool v => CopyVectorToNewTensor ElementType.kBool v
  | Payload.other _ _ => Outcome.returns (Except.error UnsupportedType)

end VectorToTensorCalculator

/-! ## The view state machine of a tensor -/

namespace TensorViews

/-- Modelled from the spec: the three view states of a Multi-dimensional Buffer. The class
`Tensor` that implements them is declared in `mediapipe/framework/formats/tensor.h`, which
is not among the sources. -/
inductive ViewState where
  | HostOnly
  | DeviceCached
  | Stale
  deriving DecidableEq, Repr

/-- Modelled from the spec: the two view requests the state machine of `Tensor` reacts to,
the acquisition of a host write view and the request of an accelerator (device) view. -/
inductive Request where
  | HostWriteView
  | DeviceView
  deriving DecidableEq, Repr

/-- Modelled from the spec: a buffer of class `Tensor` as its view state machine sees it.
`host_version` counts the host write views acquired so far, so it names the current host
contents; `device_version` is the host version the accelerator copy was made from, if there
is a copy; `copies` counts the host-to-accelerator copies performed so far. -/
structure Buffer where
  state : ViewState
  host_version : Nat
  device_version : Option Nat
  copies : Nat
  deriving DecidableEq, Repr

/-- Modelled from the spec: a new buffer of class `Tensor`, which lives in host memory
only. -/
def initial : Buffer := ⟨ViewState.HostOnly, 0, none, 0⟩

/-- Modelled from the spec: the transitions of the view state machine of `Tensor`. Any
acquisition of a host write view leads to `Stale`. A device view of a buffer in
`DeviceCached` is served from the cached copy; in any other state the host contents are
copied to the accelerator, once, and the state becomes `DeviceCached`. -/
def step (b : Buffer) : Request → Buffer
  | Request.HostWriteView =>
      { b with state := ViewState.Stale, host_version := b.host_version + 1 }
  | Request.DeviceView =>
      match b.state with
      | ViewState.DeviceCached => b
      | _ => { b with state := ViewState.DeviceCached, device_version := some b.host_version,
                      copies := b.copies + 1 }

/-- Modelled from the spec: the version of the contents that a device view of the `Tensor`
buffer hands out, which is the version of the accelerator copy once the request is
served. -/
def device_read (b : Buffer) : Option Nat := (step b Request.DeviceView).device_version

/-- The buffer after a sequence of requests. -/
def run (b : Buffer) (requests : List Request) : Buffer := requests.foldl step b

/-- The invariant of the state machine: a cached accelerator copy is a copy of the current
host contents. -/
def cache_is_fresh (b : Buffer) : Prop :=
  b.state = ViewState.DeviceCached → b.device_version = some b.host_version

instance (b : Buffer) : Decidable (cache_is_fresh b) := by
  unfold cache_is_fresh
  exact inferInstance

end TensorViews

end mediapipe

/-! ## Properties -/

namespace mediapipe

open VectorToTensorCalculator

/-- A copy that fits in the region returns it with the source elements stored from
`d_first` on and every other cell as it was. -/
theorem std_copy_of_le {T : Type} [Element T] (xs : List T) (d : Nat)
    (region : List (Option Value)) (h : d + xs.length ≤ region.length) :
    ∃ written, std_copy xs d region = Outcome.returns written ∧
      written.length = region.length ∧
      ∀ i, written[i]? =
        if d ≤ i ∧ i - d < xs.length then (xs[i - d]?).map (fun x => some (Element.store x))
        else region[i]? := by
  induction xs generalizing d region with
  | nil => exact ⟨region, rfl, rfl, by simp⟩
  | cons x rest ih =>
    have hd : d < region.length := by simp only [List.length_cons] at h; omega
    have hfit : d + 1 + rest.length ≤ (region.set d (some (Element.store x))).length := by
      simp only [List.length_cons] at h
      simp only [List.length_set]
      omega
    obtain ⟨written, hw, hlen, hget⟩ := ih (d + 1) _ hfit
    refine ⟨written, ?_, ?_, ?_⟩
    · simp only [std_copy, hd, if_true, hw]
    · simpa using hlen
    · intro i
      rw [hget i]
      by_cases h1 : d + 1 ≤ i
      · have h2 : d ≤ i := by omega
        have h3 : i - d = (i - (d + 1)) + 1 := by omega
        have h7 : d ≠ i := by omega
        by_cases h5 : i - (d + 1) < rest.length
        · have h6 : i - d < rest.length + 1 := by omega
          simp [h1, h2, h5, h6, h3]
        · have h6 : ¬ (i - d < rest.length + 1) := by omega
          simp [h1, h2, h5, h6, List.getElem?_set, h7]
      · by_cases h2 : d = i
        · subst h2
          simp [List.getElem?_set, hd]
        · have h3 : ¬ d ≤ i := by omega
          simp [h1, h3, List.getElem?_set, h2]

/-- A copy that does not fit in the region is undefined. -/
theorem std_copy_of_gt {T : Type} [Element T] (xs : List T) (d : Nat)
    (region : List (Option Value)) (hd : d ≤ region.length)
    (h : region.length < d + xs.length) : std_copy xs d region = Outcome.undefined := by
  induction xs generalizing d region with
  | nil => simp only [List.length_nil] at h; omega
  | cons x rest ih =>
    by_cases hlt : d < region.length
    · simp only [std_copy, hlt, if_true]
      apply ih
      · simp only [List.length_set]; omega
      · simp only [List.length_set, List.length_cons] at h ⊢; omega
    · simp only [std_copy, hlt, if_false]

theorem static_cast_int_of_lt (n : Nat) (h : n < 2 ^ 31) : static_cast_int n = (n : Int) := by
  have h1 : n % 2 ^ 32 = n := Nat.mod_eq_of_lt (by omega)
  unfold static_cast_int
  rw [h1, if_pos h]

theorem static_cast_int_toNat_lt (n : Nat) : (static_cast_int n).toNat < 2 ^ 31 := by
  unfold static_cast_int
  have hm : n % 2 ^ 32 < 2 ^ 32 := Nat.mod_lt _ (by decide)
  by_cases h : n % 2 ^ 32 < 2 ^ 31
  · rw [if_pos h]
    simpa using h
  · rw [if_neg h]
    have : ((n % 2 ^ 32 : Nat) : Int) - 2 ^ 32 ≤ 0 := by omega
    have h0 : (((n % 2 ^ 32 : Nat) : Int) - 2 ^ 32).toNat = 0 := Int.toNat_eq_zero.mpr this
    rw [h0]
    decide

theorem num_elements_row (x : Int) : Shape.num_elements ⟨[1, x]⟩ = x := by
  simp [Shape.num_elements]

theorem CopyVectorToNewTensor_tensor_eq {T : Type} (tag : ElementType) (xs : List T) :
    CopyVectorToNewTensor_tensor tag xs =
      ⟨tag, ⟨[1, static_cast_int xs.length]⟩,
        List.replicate (static_cast_int xs.length).toNat none⟩ := by
  simp [CopyVectorToNewTensor_tensor, Tensor.create, num_elements_row]

theorem CopyVectorToNewTensor_nil {T : Type} [Element T] (tag : ElementType) :
    CopyVectorToNewTensor tag ([] : List T) = Outcome.returns (Except.error EmptyInput) := by
  simp [CopyVectorToNewTensor, RET_CHECK_GT, EmptyInput]

/-- Below 2^31 elements the conversion returns a tensor of shape `[1, N]` with a region of
`N` cells, and reading it back gives the source vector, element by element. -/
theorem CopyVectorToNewTensor_of_lt {T : Type} [Element T] (tag : ElementType) (xs : List T)
    (h : 0 < xs.length) (hlt : xs.length < 2 ^ 31) :
    ∃ t, CopyVectorToNewTensor tag xs = Outcome.returns (Except.ok t) ∧ t.element_type = tag ∧
      t.shape = ⟨[1, (xs.length : Int)]⟩ ∧ t.shape.num_elements = xs.length ∧
      t.cpu_buffer.length = xs.length ∧ ∀ i, i < xs.length → t.read T i = xs[i]? := by
  have hfit : 0 + xs.length ≤ (List.replicate xs.length (none : Option Value)).length := by
    simp
  obtain ⟨written, hw, hlen, hget⟩ := std_copy_of_le xs 0 _ hfit
  refine ⟨⟨tag, ⟨[1, (xs.length : Int)]⟩, written⟩, ?_, rfl, rfl, ?_, ?_, ?_⟩
  · simp [CopyVectorToNewTensor, RET_CHECK_GT, h, CopyVectorToNewTensor_tensor_eq,
      Tensor.GetCpuWriteView, Tensor.release, static_cast_int_of_lt _ hlt, hw]
  · exact num_elements_row _
  · simpa using hlen
  · intro i hi
    simp only [Tensor.read, hget i]
    simp [hi, List.getElem?_eq_getElem, Element.load_store]

/-- From 2^31 elements on the region of the tensor is too small for the vector, and the
conversion is undefined. -/
theorem CopyVectorToNewTensor_of_ge {T : Type} [Element T] (tag : ElementType) (xs : List T)
    (hge : 2 ^ 31 ≤ xs.length) : CopyVectorToNewTensor tag xs = Outcome.undefined := by
  have hpos : 0 < xs.length := by omega
  have hcap := static_cast_int_toNat_lt xs.length
  have hcopy : std_copy xs 0 (List.replicate (static_cast_int xs.length).toNat
      (none : Option Value)) = Outcome.undefined := by
    apply std_copy_of_gt
    · exact Nat.zero_le _
    · simp only [List.length_replicate]; omega
  simp [CopyVectorToNewTensor, RET_CHECK_GT, hpos, CopyVectorToNewTensor_tensor_eq,
    Tensor.GetCpuWriteView, hcopy]

theorem ConvertVectorToTensor_float (v : List float) (ts : Int) :
    ConvertVectorToTensor ⟨Payload.vector_float v, ts⟩ =
      CopyVectorToNewTensor ElementType.kFloat32 v := rfl

theorem ConvertVectorToTensor_uint8_t (v : List uint8_t) (ts : Int) :
    ConvertVectorToTensor ⟨Payload.vector_uint8_t v, ts⟩ =
      CopyVectorToNewTensor ElementType.kUInt8 v := rfl

theorem ConvertVectorToTensor_int8_t (v : List int8_t) (ts : Int) :
    ConvertVectorToTensor ⟨Payload.vector_int8_t v, ts⟩ =
      CopyVectorToNewTensor ElementType.kInt8 v := rfl

theorem ConvertVectorToTensor_int32_t (v : List int32_t) (ts : Int) :
    ConvertVectorToTensor ⟨Payload.vector_int32_t v, ts⟩ =
      CopyVectorToNewTensor ElementType.kInt32 v := rfl

theorem ConvertVectorToTensor_char (v : List char) (ts : Int) :
    ConvertVectorToTensor ⟨Payload.vector_char v, ts⟩ =
      CopyVectorToNewTensor ElementType.kChar v := rfl

theorem ConvertVectorToTensor_bool (v : List Bool) (ts : Int) :
    ConvertVectorToTensor ⟨Payload.vector_bool v, ts⟩ =
      CopyVectorToNewTensor ElementType.kBool v := rfl

theorem ConvertVectorToTensor_other (type_id : Nat) (elements : List Nat) (ts : Int) :
    ConvertVectorToTensor ⟨Payload.other type_id elements, ts⟩ =
      Outcome.returns (Except.error UnsupportedType) := rfl

theorem static_cast_int_two_pow_32 : static_cast_int 4294967296 = 0 := by decide

theorem static_cast_int_two_pow_31 : static_cast_int 2147483648 = -2147483648 := by decide

/-- Claim C1, at a vector of 2^32 elements: for a `std::vector<bool>` holding 2^32 times
`true`, whose element 0 is `true`, the tensor that `CopyVectorToNewTensor` constructs has
shape `[1, 0]` and a region of no cells; the copy of the vector into it is undefined
behaviour, so the conversion returns no tensor whose contents are the vector. -/
theorem C1_contents_lost_at_two_pow_32 :
    (List.replicate 4294967296 true)[0]? = some true ∧
    CopyVectorToNewTensor_tensor ElementType.kBool (List.replicate 4294967296 true) =
      ⟨ElementType.kBool, ⟨[1, 0]⟩, []⟩ ∧
    ConvertVectorToTensor ⟨Payload.vector_bool (List.replicate 4294967296 true), 0⟩ =
      Outcome.undefined ∧
    ∀ t, ConvertVectorToTensor ⟨Payload.vector_bool (List.replicate 4294967296 true), 0⟩ ≠
      Outcome.returns (Except.ok t) := by
  have key : ConvertVectorToTensor
      ⟨Payload.vector_bool (List.replicate 4294967296 true), 0⟩ = Outcome.undefined := by
    rw [ConvertVectorToTensor_bool]
    apply CopyVectorToNewTensor_of_ge
    rw [List.length_replicate]
    decide
  refine ⟨?_, ?_, key, ?_⟩
  · rw [List.getElem?_replicate]; decide
  · rw [CopyVectorToNewTensor_tensor_eq, List.length_replicate, static_cast_int_two_pow_32]
    rfl
  · intro t ht
    rw [key] at ht
    cases ht

/-- Claim C2, at a vector of 2^31 elements: for a `std::vector<bool>` holding 2^31 times
`false`, the tensor that `CopyVectorToNewTensor` constructs has shape `[1, -2147483648]`,
whose element count is -2147483648 and not 2147483648, and the conversion, undefined
from the copy on, returns no tensor of shape `[1, 2147483648]`. -/
theorem C2_shape_wraps_at_two_pow_31 :
    (List.replicate 2147483648 false).length = 2147483648 ∧
    CopyVectorToNewTensor_tensor ElementType.kBool (List.replicate 2147483648 false) =
      ⟨ElementType.kBool, ⟨[1, -2147483648]⟩, []⟩ ∧
    Shape.num_elements ⟨[1, -2147483648]⟩ = -2147483648 ∧
    ConvertVectorToTensor ⟨Payload.vector_bool (List.replicate 2147483648 false), 0⟩ =
      Outcome.undefined := by
  refine ⟨?_, ?_, ?_, ?_⟩
  · rw [List.length_replicate]
  · rw [CopyVectorToNewTensor_tensor_eq, List.length_replicate, static_cast_int_two_pow_31]
    rfl
  · rw [num_elements_row]
  · rw [ConvertVectorToTensor_bool]
    apply CopyVectorToNewTensor_of_ge
    rw [List.length_replicate]
    decide

theorem CopyVectorToNewTensor_element_type {T : Type} [Element T] (tag : ElementType)
    (xs : List T) (h : xs ≠ []) (hlt : xs.length < 2 ^ 31) :
    ∃ t, CopyVectorToNewTensor tag xs = Outcome.returns (Except.ok t) ∧ t.element_type = tag := by
  obtain ⟨t, ht, htag, _⟩ := CopyVectorToNewTensor_of_lt tag xs (List.length_pos.mpr h) hlt
  exact ⟨t, ht, htag⟩

/-- Below 2^31 elements, the tensor that `ConvertVectorToTensor` returns for a non-empty
vector carries the tag of the element type of the vector. -/
theorem ConvertVectorToTensor_element_type_of_lt (ts : Int) :
    (∀ v : List float, v ≠ [] → v.length < 2 ^ 31 →
      ∃ t, ConvertVectorToTensor ⟨Payload.vector_float v, ts⟩ = Outcome.returns (Except.ok t) ∧
        t.element_type = ElementType.kFloat32) ∧
    (∀ v : List uint8_t, v ≠ [] → v.length < 2 ^ 31 →
      ∃ t, ConvertVectorToTensor ⟨Payload.vector_uint8_t v, ts⟩ = Outcome.returns (Except.ok t) ∧
        t.element_type = ElementType.kUInt8) ∧
    (∀ v : List int8_t, v ≠ [] → v.length < 2 ^ 31 →
      ∃ t, ConvertVectorToTensor ⟨Payload.vector_int8_t v, ts⟩ = Outcome.returns (Except.ok t) ∧
        t.element_type = ElementType.kInt8) ∧
    (∀ v : List int32_t, v ≠ [] → v.length < 2 ^ 31 →
      ∃ t, ConvertVectorToTensor ⟨Payload.vector_int32_t v, ts⟩ = Outcome.returns (Except.ok t) ∧
        t.element_type = ElementType.kInt32) ∧
    (∀ v : List char, v ≠ [] → v.length < 2 ^ 31 →
      ∃ t, ConvertVectorToTensor ⟨Payload.vector_char v, ts⟩ = Outcome.returns (Except.ok t) ∧
        t.element_type = ElementType.kChar) ∧
    (∀ v : List Bool, v ≠ [] → v.length < 2 ^ 31 →
      ∃ t, ConvertVectorToTensor ⟨Payload.vector_bool v, ts⟩ = Outcome.returns (Except.ok t) ∧
        t.element_type = ElementType.kBool) := by
  refine ⟨?_, ?_, ?_, ?_, ?_, ?_⟩
  · intro v hv hlt
    rw [ConvertVectorToTensor_float]
    exact CopyVectorToNewTensor_element_type _ v hv hlt
  · intro v hv hlt
    rw [ConvertVectorToTensor_uint8_t]
    exact CopyVectorToNewTensor_element_type _ v hv hlt
  · intro v hv hlt
    rw [ConvertVectorToTensor_int8_t]
    exact CopyVectorToNewTensor_element_type _ v hv hlt
  · intro v hv hlt
    rw [ConvertVectorToTensor_int32_t]
    exact CopyVectorToNewTensor_element_type _ v hv hlt
  · intro v hv hlt
    rw [ConvertVectorToTensor_char]
    exact CopyVectorToNewTensor_element_type _ v hv hlt
  · intro v hv hlt
    rw [ConvertVectorToTensor_bool]
    exact CopyVectorToNewTensor_element_type _ v hv hlt

/-- Claim C3, at a vector of 2^31 elements: for a packet holding a `std::vector<uint8_t>`
of 2^31 times 255, which is non-empty and of a supported type, the conversion is
undefined behaviour and returns no tensor, so none tagged kUInt8. -/
theorem C3_no_tagged_tensor_at_two_pow_31 :
    List.replicate 2147483648 (⟨255⟩ : uint8_t) ≠ [] ∧
    ConvertVectorToTensor ⟨Payload.vector_uint8_t (List.replicate 2147483648 ⟨255⟩), 0⟩ =
      Outcome.undefined ∧
    ¬ ∃ t, ConvertVectorToTensor
        ⟨Payload.vector_uint8_t (List.replicate 2147483648 ⟨255⟩), 0⟩ =
          Outcome.returns (Except.ok t) ∧ t.element_type = ElementType.kUInt8 := by
  have key : ConvertVectorToTensor
      ⟨Payload.vector_uint8_t (List.replicate 2147483648 ⟨255⟩), 0⟩ = Outcome.undefined := by
    rw [ConvertVectorToTensor_uint8_t]
    apply CopyVectorToNewTensor_of_ge
    rw [List.length_replicate]
    decide
  refine ⟨?_, key, ?_⟩
  · intro h
    have hlen := congrArg List.length h
    rw [List.length_replicate] at hlen
    revert hlen
    decide
  · rintro ⟨t, ht, _⟩
    rw [key] at ht
    cases ht

theorem EmptyInput_ne_UnsupportedType : EmptyInput ≠ UnsupportedType := by
  intro h
  have hc : EmptyInput.code = UnsupportedType.code := by rw [h]
  revert hc
  decide

theorem CopyVectorToNewTensor_ok_iff {T : Type} [Element T] (tag : ElementType) (xs : List T) :
    (∃ t, CopyVectorToNewTensor tag xs = Outcome.returns (Except.ok t)) ↔
      (0 < xs.length ∧ xs.length < 2 ^ 31) := by
  constructor
  · rintro ⟨t, ht⟩
    by_cases h0 : xs.length = 0
    · have hnil : xs = [] := List.length_eq_zero.mp h0
      subst hnil
      rw [CopyVectorToNewTensor_nil] at ht
      cases ht
    · by_cases hge : 2 ^ 31 ≤ xs.length
      · rw [CopyVectorToNewTensor_of_ge tag xs hge] at ht
        cases ht
      · omega
  · rintro ⟨h, hlt⟩
    obtain ⟨t, ht, _⟩ := CopyVectorToNewTensor_of_lt tag xs h hlt
    exact ⟨t, ht⟩

theorem CopyVectorToNewTensor_empty_iff {T : Type} [Element T] (tag : ElementType)
    (xs : List T) :
    CopyVectorToNewTensor tag xs = Outcome.returns (Except.error EmptyInput) ↔
      xs.length = 0 := by
  constructor
  · intro h
    by_cases h0 : xs.length = 0
    · exact h0
    · by_cases hge : 2 ^ 31 ≤ xs.length
      · rw [CopyVectorToNewTensor_of_ge tag xs hge] at h
        cases h
      · obtain ⟨t, ht, _⟩ := CopyVectorToNewTensor_of_lt tag xs (by omega) (by omega)
        rw [ht] at h
        cases h
  · intro h
    have hnil : xs = [] := List.length_eq_zero.mp h
    subst hnil
    exact CopyVectorToNewTensor_nil tag

theorem CopyVectorToNewTensor_undefined_iff {T : Type} [Element T] (tag : ElementType)
    (xs : List T) : CopyVectorToNewTensor tag xs = Outcome.undefined ↔ 2 ^ 31 ≤ xs.length := by
  constructor
  · intro h
    by_cases h0 : xs.length = 0
    · have hnil : xs = [] := List.length_eq_zero.mp h0
      subst hnil
      rw [CopyVectorToNewTensor_nil] at h
      cases h
    · by_cases hge : 2 ^ 31 ≤ xs.length
      · exact hge
      · obtain ⟨t, ht, _⟩ := CopyVectorToNewTensor_of_lt tag xs (by omega) (by omega)
        rw [ht] at h
        cases h
  · exact CopyVectorToNewTensor_of_ge tag xs

theorem CopyVectorToNewTensor_ne_unsupported {T : Type} [Element T] (tag : ElementType)
    (xs : List T) :
    CopyVectorToNewTensor tag xs ≠ Outcome.returns (Except.error UnsupportedType) := by
  intro h
  by_cases h0 : xs.length = 0
  · rw [(CopyVectorToNewTensor_empty_iff tag xs).mpr h0] at h
    injection h with h1
    exact EmptyInput_ne_UnsupportedType (Except.error.inj h1)
  · by_cases hge : 2 ^ 31 ≤ xs.length
    · rw [CopyVectorToNewTensor_of_ge tag xs hge] at h
      cases h
    · obtain ⟨t, ht, _⟩ := CopyVectorToNewTensor_of_lt tag xs (by omega) (by omega)
      rw [ht] at h
      cases h

/-- Claim C4: for each of the six supported element types, the conversion of an empty
vector fails with the EmptyInput status; the result is no tensor, so no tensor of
shape `[1, 0]` either. -/
theorem C4_empty_vector_fails (ts : Int) :
    ConvertVectorToTensor ⟨Payload.vector_float [], ts⟩ =
      Outcome.returns (Except.error EmptyInput) ∧
    ConvertVectorToTensor ⟨Payload.vector_uint8_t [], ts⟩ =
      Outcome.returns (Except.error EmptyInput) ∧
    ConvertVectorToTensor ⟨Payload.vector_int8_t [], ts⟩ =
      Outcome.returns (Except.error EmptyInput) ∧
    ConvertVectorToTensor ⟨Payload.vector_int32_t [], ts⟩ =
      Outcome.returns (Except.error EmptyInput) ∧
    ConvertVectorToTensor ⟨Payload.vector_char [], ts⟩ =
      Outcome.returns (Except.error EmptyInput) ∧
    ConvertVectorToTensor ⟨Payload.vector_bool [], ts⟩ =
      Outcome.returns (Except.error EmptyInput) ∧
    ∀ input : Packet, input.payload.supported = true → input.payload.size = 0 →
      ConvertVectorToTensor input = Outcome.returns (Except.error EmptyInput) ∧
      ∀ t, ConvertVectorToTensor input ≠ Outcome.returns (Except.ok t) := by
  refine ⟨rfl, rfl, rfl, rfl, rfl, rfl, ?_⟩
  intro input hs hz
  have key : ConvertVectorToTensor input = Outcome.returns (Except.error EmptyInput) := by
    obtain ⟨payload, ts2⟩ := input
    cases payload with
    | vector_float v =>
      rw [ConvertVectorToTensor_float]; exact (CopyVectorToNewTensor_empty_iff _ v).mpr hz
    | vector_uint8_t v =>
      rw [ConvertVectorToTensor_uint8_t]; exact (CopyVectorToNewTensor_empty_iff _ v).mpr hz
    | vector_int8_t v =>
      rw [ConvertVectorToTensor_int8_t]; exact (CopyVectorToNewTensor_empty_iff _ v).mpr hz
    | vector_int32_t v =>
      rw [ConvertVectorToTensor_int32_t]; exact (CopyVectorToNewTensor_empty_iff _ v).mpr hz
    | vector_char v =>
      rw [ConvertVectorToTensor_char]; exact (CopyVectorToNewTensor_empty_iff _ v).mpr hz
    | vector_bool v =>
      rw [ConvertVectorToTensor_bool]; exact (CopyVectorToNewTensor_empty_iff _ v).mpr hz
    | other type_id elements => cases hs
  refine ⟨key, ?_⟩
  intro t ht
  rw [key] at ht
  cases ht

/-- Claim C4 at the empty `std::vector<int32_t>` of the third scenario of the spec. -/
theorem C4_empty_vector_fails_witness :
    ConvertVectorToTensor ⟨Payload.vector_int32_t [], 3⟩ =
      Outcome.returns (Except.error EmptyInput) ∧
    ∀ t, ConvertVectorToTensor ⟨Payload.vector_int32_t [], 3⟩ ≠
      Outcome.returns (Except.ok t) :=
  (C4_empty_vector_fails 3).2.2.2.2.2.2 ⟨Payload.vector_int32_t [], 3⟩ rfl rfl

/-- Claim C5: for a packet whose payload is none of the six supported vector types,
`ConvertVectorToTensor` fails with the UnsupportedType status, whose code is "invalid
argument", and returns no tensor. -/
theorem C5_unsupported_type_fails (input : Packet) (h : input.payload.supported = false) :
    ConvertVectorToTensor input = Outcome.returns (Except.error UnsupportedType) ∧
    UnsupportedType.code = StatusCode.kInvalidArgument ∧
    ∀ t, ConvertVectorToTensor input ≠ Outcome.returns (Except.ok t) := by
  obtain ⟨payload, ts⟩ := input
  have key : ConvertVectorToTensor ⟨payload, ts⟩ =
      Outcome.returns (Except.error UnsupportedType) := by
    cases payload with
    | other type_id elements => rfl
    | _ => cases h
  refine ⟨key, rfl, ?_⟩
  intro t ht
  rw [key] at ht
  cases ht

/-- Claim C5 at a packet holding three elements of an unlisted type. -/
theorem C5_unsupported_type_fails_witness :
    (Payload.other 7 [1, 2, 3]).supported = false ∧
    ConvertVectorToTensor ⟨Payload.other 7 [1, 2, 3], 11⟩ =
      Outcome.returns (Except.error UnsupportedType) ∧
    UnsupportedType.code = StatusCode.kInvalidArgument ∧
    ∀ t, ConvertVectorToTensor ⟨Payload.other 7 [1, 2, 3], 11⟩ ≠
      Outcome.returns (Except.ok t) :=
  ⟨rfl, C5_unsupported_type_fails ⟨Payload.other 7 [1, 2, 3], 11⟩ rfl⟩

/-- Claim C6: when the conversion succeeds, `Process` returns success and leaves the
context with exactly one more packet on TENSOR, which carries the converted tensor; when
the conversion fails, `Process` returns the status of the failure as it is and leaves the
context, so the TENSOR port too, unchanged. -/
theorem C6_process_all_or_nothing (cc : CalculatorContext) :
    (∀ t, ConvertVectorToTensor cc.VECTOR = Outcome.returns (Except.ok t) →
      ∃ after packet, Process cc = Outcome.returns (OkStatus, after) ∧
        after.VECTOR = cc.VECTOR ∧ after.TENSOR.length = cc.TENSOR.length + 1 ∧
        after.TENSOR = cc.TENSOR ++ [packet] ∧ packet.payload = t) ∧
    (∀ status, ConvertVectorToTensor cc.VECTOR = Outcome.returns (Except.error status) →
      Process cc = Outcome.returns (status, cc)) := by
  constructor
  · intro t ht
    refine ⟨cc.Send t, ⟨t, cc.VECTOR.timestamp⟩, ?_, rfl, ?_, rfl, rfl⟩
    · simp [Process, ht]
    · simp [CalculatorContext.Send]
  · intro status hs
    simp [Process, hs]

/-- Claim C6 at a context with three booleans on VECTOR, and at one with an empty vector. -/
theorem C6_process_all_or_nothing_witness :
    (∃ after packet,
      Process ⟨⟨Payload.vector_bool [true, false, true], 9⟩, []⟩ =
        Outcome.returns (OkStatus, after) ∧
      after.VECTOR = ⟨Payload.vector_bool [true, false, true], 9⟩ ∧
      after.TENSOR.length = 0 + 1 ∧ after.TENSOR = [] ++ [packet] ∧
      packet.payload = ⟨ElementType.kBool, ⟨[1, 3]⟩,
        [some (Value.bool true), some (Value.bool false), some (Value.bool true)]⟩) ∧
    Process ⟨⟨Payload.vector_int32_t [], 9⟩, []⟩ =
      Outcome.returns (EmptyInput, ⟨⟨Payload.vector_int32_t [], 9⟩, []⟩) :=
  ⟨(C6_process_all_or_nothing ⟨⟨Payload.vector_bool [true, false, true], 9⟩, []⟩).1 _ rfl,
   (C6_process_all_or_nothing ⟨⟨Payload.vector_int32_t [], 9⟩, []⟩).2 _ rfl⟩

/-- Claim C7: when `Process` succeeds, the one packet it sends on TENSOR carries the
timestamp of the input packet on VECTOR. -/
theorem C7_timestamp_preserved (cc : CalculatorContext) (t : Tensor)
    (h : ConvertVectorToTensor cc.VECTOR = Outcome.returns (Except.ok t)) :
    Process cc = Outcome.returns
      (OkStatus, ⟨cc.VECTOR, cc.TENSOR ++ [⟨t, cc.VECTOR.timestamp⟩]⟩) := by
  simp [Process, h, CalculatorContext.Send]

/-- Claim C7 at a context whose input packet has timestamp 42. -/
theorem C7_timestamp_preserved_witness :
    Process ⟨⟨Payload.vector_uint8_t [⟨255⟩, ⟨0⟩], 42⟩, []⟩ =
      Outcome.returns (OkStatus, ⟨⟨Payload.vector_uint8_t [⟨255⟩, ⟨0⟩], 42⟩,
        [] ++ [⟨⟨ElementType.kUInt8, ⟨[1, 2]⟩,
          [some (Value.uint8_t ⟨255⟩), some (Value.uint8_t ⟨0⟩)]⟩, 42⟩]⟩) :=
  C7_timestamp_preserved ⟨⟨Payload.vector_uint8_t [⟨255⟩, ⟨0⟩], 42⟩, []⟩ _ rfl

theorem sequential_checks_eq_of_mem (order : List TypeCheck) (input : Packet)
    (result : Outcome (StatusOr Tensor)) (check : TypeCheck) (hmem : check ∈ order)
    (hcheck : check.branch input = some result)
    (hall : ∀ other : TypeCheck, other.branch input = none ∨ other.branch input = some result) :
    sequential_checks order input = result := by
  induction order with
  | nil => cases hmem
  | cons first rest ih =>
    rcases hall first with hnone | hsome
    · have hne : check ≠ first := by
        intro heq
        rw [heq, hnone] at hcheck
        cases hcheck
      have hrest : check ∈ rest := by
        rcases List.mem_cons.mp hmem with h | h
        · exact absurd h hne
        · exact h
      simp only [sequential_checks, hnone]
      exact ih hrest
    · simp only [sequential_checks, hsome]

theorem sequential_checks_of_all_none (order : List TypeCheck) (input : Packet)
    (hall : ∀ other : TypeCheck, other.branch input = none) :
    sequential_checks order input = Outcome.returns (Except.error UnsupportedType) := by
  induction order with
  | nil => rfl
  | cons first rest ih => simp only [sequential_checks, hall first, ih]

/-- Claim C9: the sequence of type checks of `ConvertVectorToTensor` returns, for every
packet, what a single exhaustive match on the type tag of the packet returns, and the six
checks run in any other order return the same. -/
theorem C9_check_order_is_irrelevant (order : List TypeCheck) (h : order.Perm source_order)
    (input : Packet) :
    ConvertVectorToTensor input = match_on_type_tag input ∧
    sequential_checks source_order input = ConvertVectorToTensor input ∧
    sequential_checks order input = ConvertVectorToTensor input := by
  have hmem : ∀ check : TypeCheck, check ∈ order := by
    intro check
    refine h.symm.subset ?_
    cases check <;> simp [source_order]
  obtain ⟨payload, ts⟩ := input
  cases payload with
  | vector_float v =>
    refine ⟨rfl, rfl, sequential_checks_eq_of_mem order _ _ TypeCheck.float (hmem _) rfl ?_⟩
    intro other
    cases other
    · exact Or.inr rfl
    all_goals exact Or.inl rfl
  | vector_uint8_t v =>
    refine ⟨rfl, rfl, sequential_checks_eq_of_mem order _ _ TypeCheck.uint8_t (hmem _) rfl ?_⟩
    intro other
    cases other
    case uint8_t => exact Or.inr rfl
    all_goals exact Or.inl rfl
  | vector_int8_t v =>
    refine ⟨rfl, rfl, sequential_checks_eq_of_mem order _ _ TypeCheck.int8_t (hmem _) rfl ?_⟩
    intro other
    cases other
    case int8_t => exact Or.inr rfl
    all_goals exact Or.inl rfl
  | vector_int32_t v =>
    refine ⟨rfl, rfl, sequential_checks_eq_of_mem order _ _ TypeCheck.int32_t (hmem _) rfl ?_⟩
    intro other
    cases other
    case int32_t => exact Or.inr rfl
    all_goals exact Or.inl rfl
  | vector_char v =>
    refine ⟨rfl, rfl, sequential_checks_eq_of_mem order _ _ TypeCheck.char (hmem _) rfl ?_⟩
    intro other
    cases other
    case char => exact Or.inr rfl
    all_goals exact Or.inl rfl
  | vector_bool v =>
    refine ⟨rfl, rfl, sequential_checks_eq_of_mem order _ _ TypeCheck.bool (hmem _) rfl ?_⟩
    intro other
    cases other
    case bool => exact Or.inr rfl
    all_goals exact Or.inl rfl
  | other type_id elements =>
    refine ⟨rfl, rfl, ?_⟩
    rw [ConvertVectorToTensor_other]
    refine sequential_checks_of_all_none order _ ?_
    intro other
    cases other <;> rfl

/-- Claim C9 with the six checks in the reverse of the source order, at a packet of two
characters. -/
theorem C9_check_order_is_irrelevant_witness :
    source_order.reverse.Perm source_order ∧
    ConvertVectorToTensor ⟨Payload.vector_char [⟨104⟩, ⟨105⟩], 1⟩ =
      match_on_type_tag ⟨Payload.vector_char [⟨104⟩, ⟨105⟩], 1⟩ ∧
    sequential_checks source_order ⟨Payload.vector_char [⟨104⟩, ⟨105⟩], 1⟩ =
      ConvertVectorToTensor ⟨Payload.vector_char [⟨104⟩, ⟨105⟩], 1⟩ ∧
    sequential_checks source_order.reverse ⟨Payload.vector_char [⟨104⟩, ⟨105⟩], 1⟩ =
      ConvertVectorToTensor ⟨Payload.vector_char [⟨104⟩, ⟨105⟩], 1⟩ :=
  ⟨List.reverse_perm source_order,
   C9_check_order_is_irrelevant source_order.reverse (List.reverse_perm source_order)
     ⟨Payload.vector_char [⟨104⟩, ⟨105⟩], 1⟩⟩

/-- The four outcomes of `ConvertVectorToTensor`: it returns a tensor exactly when the
type is supported and the vector has between 1 and 2^31 - 1 elements; it fails with
EmptyInput exactly when the type is supported and the vector is empty; it fails with
UnsupportedType exactly when the type is not supported; and it is undefined exactly when
the type is supported and the vector has 2^31 elements or more. -/
theorem ConvertVectorToTensor_outcomes (input : Packet) :
    ((∃ t, ConvertVectorToTensor input = Outcome.returns (Except.ok t)) ↔
      (input.payload.supported = true ∧ 0 < input.payload.size ∧
        input.payload.size < 2 ^ 31)) ∧
    (ConvertVectorToTensor input = Outcome.returns (Except.error EmptyInput) ↔
      (input.payload.supported = true ∧ input.payload.size = 0)) ∧
    (ConvertVectorToTensor input = Outcome.returns (Except.error UnsupportedType) ↔
      input.payload.supported = false) ∧
    (ConvertVectorToTensor input = Outcome.undefined ↔
      (input.payload.supported = true ∧ 2 ^ 31 ≤ input.payload.size)) := by
  obtain ⟨payload, ts⟩ := input
  cases payload with
  | vector_float v =>
    rw [ConvertVectorToTensor_float, CopyVectorToNewTensor_ok_iff, CopyVectorToNewTensor_empty_iff,
      CopyVectorToNewTensor_undefined_iff]
    refine ⟨by simp [Payload.supported, Payload.size], by simp [Payload.supported, Payload.size],
      ?_, by simp [Payload.supported, Payload.size]⟩
    exact ⟨fun h => absurd h (CopyVectorToNewTensor_ne_unsupported _ v), fun h => by cases h⟩
  | vector_uint8_t v =>
    rw [ConvertVectorToTensor_uint8_t, CopyVectorToNewTensor_ok_iff, CopyVectorToNewTensor_empty_iff,
      CopyVectorToNewTensor_undefined_iff]
    refine ⟨by simp [Payload.supported, Payload.size], by simp [Payload.supported, Payload.size],
      ?_, by simp [Payload.supported, Payload.size]⟩
    exact ⟨fun h => absurd h (CopyVectorToNewTensor_ne_unsupported _ v), fun h => by cases h⟩
  | vector_int8_t v =>
    rw [ConvertVectorToTensor_int8_t, CopyVectorToNewTensor_ok_iff, CopyVectorToNewTensor_empty_iff,
      CopyVectorToNewTensor_undefined_iff]
    refine ⟨by simp [Payload.supported, Payload.size], by simp [Payload.supported, Payload.size],
      ?_, by simp [Payload.supported, Payload.size]⟩
    exact ⟨fun h => absurd h (CopyVectorToNewTensor_ne_unsupported _ v), fun h => by cases h⟩
  | vector_int32_t v =>
    rw [ConvertVectorToTensor_int32_t, CopyVectorToNewTensor_ok_iff, CopyVectorToNewTensor_empty_iff,
      CopyVectorToNewTensor_undefined_iff]
    refine ⟨by simp [Payload.supported, Payload.size], by simp [Payload.supported, Payload.size],
      ?_, by simp [Payload.supported, Payload.size]⟩
    exact ⟨fun h => absurd h (CopyVectorToNewTensor_ne_unsupported _ v), fun h => by cases h⟩
  | vector_char v =>
    rw [ConvertVectorToTensor_char, CopyVectorToNewTensor_ok_iff, CopyVectorToNewTensor_empty_iff,
      CopyVectorToNewTensor_undefined_iff]
    refine ⟨by simp [Payload.supported, Payload.size], by simp [Payload.supported, Payload.size],
      ?_, by simp [Payload.supported, Payload.size]⟩
    exact ⟨fun h => absurd h (CopyVectorToNewTensor_ne_unsupported _ v), fun h => by cases h⟩
  | vector_bool v =>
    rw [ConvertVectorToTensor_bool, CopyVectorToNewTensor_ok_iff, CopyVectorToNewTensor_empty_iff,
      CopyVectorToNewTensor_undefined_iff]
    refine ⟨by simp [Payload.supported, Payload.size], by simp [Payload.supported, Payload.size],
      ?_, by simp [Payload.supported, Payload.size]⟩
    exact ⟨fun h => absurd h (CopyVectorToNewTensor_ne_unsupported _ v), fun h => by cases h⟩
  | other type_id elements =>
    rw [ConvertVectorToTensor_other]
    refine ⟨?_, ?_, ⟨fun _ => rfl, fun _ => rfl⟩, ?_⟩
    · constructor
      · rintro ⟨t, ht⟩
        cases ht
      · rintro ⟨h, _⟩
        cases h
    · constructor
      · intro h
        injection h with h1
        exact absurd (Except.error.inj h1).symm EmptyInput_ne_UnsupportedType
      · rintro ⟨h, _⟩
        cases h
    · constructor
      · intro h
        cases h
      · rintro ⟨h, _⟩
        cases h

/-- Claim C10, at a vector of 3000000000 elements: a packet holding a `std::vector<char>`
of that many elements has a supported type and a non-empty vector, and the conversion
neither succeeds nor fails with one of the two statuses: it is undefined behaviour. -/
theorem C10_fourth_outcome_at_large_vector :
    (Payload.vector_char (List.replicate 3000000000 ⟨97⟩)).supported = true ∧
    0 < (Payload.vector_char (List.replicate 3000000000 ⟨97⟩)).size ∧
    ConvertVectorToTensor ⟨Payload.vector_char (List.replicate 3000000000 ⟨97⟩), 0⟩ =
      Outcome.undefined ∧
    ¬ ∃ t, ConvertVectorToTensor ⟨Payload.vector_char (List.replicate 3000000000 ⟨97⟩), 0⟩ =
      Outcome.returns (Except.ok t) := by
  have hsize : (Payload.vector_char (List.replicate 3000000000 ⟨97⟩)).size = 3000000000 := by
    show (List.replicate 3000000000 (⟨97⟩ : char)).length = 3000000000
    rw [List.length_replicate]
  have key : ConvertVectorToTensor
      ⟨Payload.vector_char (List.replicate 3000000000 ⟨97⟩), 0⟩ = Outcome.undefined := by
    rw [ConvertVectorToTensor_char]
    apply CopyVectorToNewTensor_of_ge
    rw [List.length_replicate]
    decide
  refine ⟨rfl, ?_, key, ?_⟩
  · rw [hsize]
    decide
  · rintro ⟨t, ht⟩
    rw [key] at ht
    cases ht

namespace TensorViews

theorem cache_is_fresh_initial : cache_is_fresh initial := by
  intro h
  cases h

theorem cache_is_fresh_step (b : Buffer) (request : Request) (h : cache_is_fresh b) :
    cache_is_fresh (step b request) := by
  cases request with
  | HostWriteView =>
    intro hs
    cases hs
  | DeviceView =>
    unfold step
    cases hstate : b.state with
    | HostOnly => intro _; rfl
    | Stale => intro _; rfl
    | DeviceCached => exact h

theorem cache_is_fresh_run (requests : List Request) (b : Buffer) (h : cache_is_fresh b) :
    cache_is_fresh (run b requests) := by
  induction requests generalizing b with
  | nil => exact h
  | cons request rest ih => exact ih (step b request) (cache_is_fresh_step b request h)

theorem device_read_of_fresh (b : Buffer) (h : cache_is_fresh b) :
    device_read b = some b.host_version := by
  unfold device_read step
  cases hstate : b.state with
  | HostOnly => rfl
  | Stale => rfl
  | DeviceCached => exact h hstate

theorem run_device_views_of_cached (k : Nat) (b : Buffer)
    (h : b.state = ViewState.DeviceCached) :
    run b (List.replicate k Request.DeviceView) = b := by
  induction k with
  | zero => rfl
  | succ n ih =>
    have hstep : step b Request.DeviceView = b := by simp [step, h]
    simp only [run, List.replicate_succ, List.foldl_cons, hstep]
    exact ih

theorem step_device_view_state (b : Buffer) :
    (step b Request.DeviceView).state = ViewState.DeviceCached := by
  unfold step
  cases hstate : b.state with
  | HostOnly => rfl
  | Stale => rfl
  | DeviceCached => exact hstate

theorem step_device_view_copies (b : Buffer) :
    (step b Request.DeviceView).copies ≤ b.copies + 1 := by
  unfold step
  cases hstate : b.state with
  | HostOnly => exact Nat.le_refl _
  | Stale => exact Nat.le_refl _
  | DeviceCached => exact Nat.le_succ _

theorem run_device_views_copies (k : Nat) (b : Buffer) :
    (run b (List.replicate k Request.DeviceView)).copies ≤ b.copies + 1 := by
  cases k with
  | zero => exact Nat.le_succ _
  | succ n =>
    have h := run_device_views_of_cached n (step b Request.DeviceView) (step_device_view_state b)
    simp only [run, List.replicate_succ, List.foldl_cons] at h ⊢
    rw [h]
    exact step_device_view_copies b

end TensorViews

/-- Claim C8: in every state the view state machine reaches from a new buffer, a device
read hands out a copy of the current host contents, never one made before the most recent
host write view; acquiring a host write view leaves the buffer in `Stale`, where the next
device read makes a fresh copy; and any number of device views in a row, so any number of
them between two host writes, perform at most one host-to-accelerator copy. -/
theorem C8_device_copy_never_stale (requests : List TensorViews.Request) (k : Nat) :
    TensorViews.device_read (TensorViews.run TensorViews.initial requests) =
      some (TensorViews.run TensorViews.initial requests).host_version ∧
    (TensorViews.step (TensorViews.run TensorViews.initial requests)
      TensorViews.Request.HostWriteView).state = TensorViews.ViewState.Stale ∧
    TensorViews.device_read (TensorViews.step (TensorViews.run TensorViews.initial requests)
      TensorViews.Request.HostWriteView) =
        some ((TensorViews.run TensorViews.initial requests).host_version + 1) ∧
    (TensorViews.run (TensorViews.step (TensorViews.run TensorViews.initial requests)
      TensorViews.Request.HostWriteView)
        (List.replicate k TensorViews.Request.DeviceView)).copies ≤
      (TensorViews.run TensorViews.initial requests).copies + 1 ∧
    (TensorViews.run (TensorViews.run TensorViews.initial requests)
        (List.replicate k TensorViews.Request.DeviceView)).copies ≤
      (TensorViews.run TensorViews.initial requests).copies + 1 := by
  have hfresh := TensorViews.cache_is_fresh_run requests TensorViews.initial
    TensorViews.cache_is_fresh_initial
  refine ⟨TensorViews.device_read_of_fresh _ hfresh, rfl, ?_, ?_, ?_⟩
  · exact TensorViews.device_read_of_fresh _
      (TensorViews.cache_is_fresh_step _ TensorViews.Request.HostWriteView hfresh)
  · exact TensorViews.run_device_views_copies k _
  · exact TensorViews.run_device_views_copies k _

end mediapipe
